import Mathlib

/-!
Shallow embedding of the checkpoint key remapper of
`scripts/nlp_language_modeling/hf_t5-v1_1_to_nemo.py`.

Tensors are modelled as integer matrices (lists of rows); `torch.cat` along
dimension 0 is list append.  A checkpoint is an ordered association list from
string keys to tensors, mirroring the Python `OrderedDict`.  A fatal Python
exception (`ValueError`, `KeyError`) is an `Except.error` carrying the message.
-/

/-- A tensor of the checkpoint, as a matrix: a list of rows of integers. -/
abbrev Tensor := List (List Int)

/-- A tensor has shape (r, c): r rows, each of length c. -/
abbrev tensorShape (t : Tensor) (r c : Nat) : Prop :=
  t.length = r ∧ ∀ row ∈ t, row.length = c

/-- Python's substring test `pat in s`. -/
abbrev strHas (s pat : String) : Prop := pat.data <:+: s.data

/-- Python's `s.startswith(pre)`. -/
abbrev strStarts (s pre : String) : Prop := pre.data <+: s.data

/-- Python's `s.split('.')` on the character list: every dot separates,
empty segments are kept. -/
def splitDotChars : List Char → List (List Char)
  | [] => [[]]
  | c :: rest =>
    if c = '.' then [] :: splitDotChars rest
    else
      match splitDotChars rest with
      | [] => [[c]]
      | h :: t => (c :: h) :: t

/-- Python's `k.split('.')`. -/
def pySplitDot (s : String) : List String :=
  (splitDotChars s.data).map (fun l => String.mk l)

/-- Digit run of Python's `int(...)`: a nonempty, all-digit character list,
read in base 10. -/
def parseDigits : List Char → Nat → Option Nat
  | [], acc => some acc
  | c :: rest, acc =>
    if c.isDigit then parseDigits rest (acc * 10 + (c.toNat - 48)) else none

/-- Python's `int(s)` on the literals the checkpoint keys can carry: an
optional minus sign followed by decimal digits; anything else raises. -/
def pyInt (s : String) : Option Int :=
  match s.data with
  | [] => none
  | '-' :: rest =>
    match rest with
    | [] => none
    | _ => (parseDigits rest 0).map (fun n => -(n : Int))
  | l => (parseDigits l 0).map (fun n => (n : Int))

/-- Fuel-driven body of Python's `s.replace(pat, rep)`: left-to-right,
non-overlapping replacement of every occurrence. -/
def pyReplaceAux (pat rep : List Char) : Nat → List Char → List Char
  | 0, s => s
  | _ + 1, [] => []
  | fuel + 1, c :: rest =>
    if pat.isPrefixOf (c :: rest) then
      rep ++ pyReplaceAux pat rep fuel ((c :: rest).drop pat.length)
    else c :: pyReplaceAux pat rep fuel rest

/-- Python's `s.replace(pat, rep)` (for the nonempty patterns the source
uses). -/
def pyReplace (s pat rep : String) : String :=
  String.mk (pyReplaceAux pat.data rep.data (s.data.length + 1) s.data)

/-- Python's `int(...)` applied to segment `i` of a split key, with the two
failure modes of the original (index out of range, non-numeric literal). -/
def parseSeg (parts : List String) (i : Nat) : Except String Int :=
  match parts.get? i with
  | none => .error "IndexError: list index out of range"
  | some s =>
    match pyInt s with
    | none => .error ("ValueError: invalid literal for int: " ++ s)
    | some n => .ok n

/-- The helper `_get_model_type_block_layer` of the source: the root module of
the key, then the integers at split positions 2 and 4. -/
def getMTBL (k : String) : Except String (String × Int × Int) :=
  match (if strStarts k "encoder" then Except.ok "encoder"
         else if strStarts k "decoder" then Except.ok "decoder"
         else Except.error ("Unknown model type for " ++ k) : Except String String) with
  | .error e => .error e
  | .ok mt =>
    match parseSeg (pySplitDot k) 2 with
    | .error e => .error e
    | .ok b =>
      match parseSeg (pySplitDot k) 4 with
      | .error e => .error e
      | .ok l => .ok (mt, b, l)

/-- Target key of a per-layer parameter, as built by the source's f-strings. -/
def mkLayerKey (mt : String) (b : Int) (leaf : String) : String :=
  "enc_dec_model.enc_dec_model." ++ (mt ++ (".model.layers." ++ (toString b ++ ("." ++ leaf))))

/-- Target key of a final layernorm weight. -/
def mkFinalKey (mt : String) : String :=
  "enc_dec_model.enc_dec_model." ++ (mt ++ ".model.final_layernorm.weight")

/-- One iteration of the `for k, v in hf_weights.items()` loop of
`convert_weights`: the chain of `if`/`elif` pattern tests, in source order.
`lookup` is indexing into the full source dictionary (`hf_weights[...]`);
a missing sibling key is Python's `KeyError`.  The result is `none` when the
key is intentionally skipped, `some (targetKey, tensor)` when one entry is
written into `nemo_weights`, and an error for the fatal `raise` paths. -/
def handleKey (lookup : String → Option Tensor) (k : String) (v : Tensor) :
    Except String (Option (String × Tensor)) :=
  if k = "shared.weight" then .ok none
  else if k = "lm_head.weight" then
    .ok (some ("enc_dec_model.tokens_head.weight", v))
  else if k = "decoder.embed_tokens.weight" then
    .ok (some ("enc_dec_model.decoder_embedding.word_embeddings.weight", v))
  else if k = "encoder.embed_tokens.weight" then
    .ok (some ("enc_dec_model.encoder_embedding.word_embeddings.weight", v))
  else if k = "encoder.block.0.layer.0.SelfAttention.relative_attention_bias.weight" then
    .ok (some ("enc_dec_model.encoder_relative_position_embedding.relative_position_embedding.weight", v))
  else if k = "decoder.block.0.layer.0.SelfAttention.relative_attention_bias.weight" then
    .ok (some ("enc_dec_model.decoder_relative_position_embedding.relative_position_embedding.weight", v))
  else if strHas k "SelfAttention.q.weight" then
    match getMTBL k with
    | .error e => .error e
    | .ok (mt, b, _) =>
      match lookup (pyReplace k "q.weight" "k.weight") with
      | none => .error ("KeyError: " ++ pyReplace k "q.weight" "k.weight")
      | some kw =>
        match lookup (pyReplace k "q.weight" "v.weight") with
        | none => .error ("KeyError: " ++ pyReplace k "q.weight" "v.weight")
        | some vw =>
          .ok (some (mkLayerKey mt b "self_attention.query_key_value.weight", v ++ kw ++ vw))
  else if strHas k "SelfAttention.k.weight" ∨ strHas k "SelfAttention.v.weight" then .ok none
  else if strHas k "SelfAttention.o.weight" then
    match getMTBL k with
    | .error e => .error e
    | .ok (mt, b, _) => .ok (some (mkLayerKey mt b "self_attention.dense.weight", v))
  else if strHas k "EncDecAttention.k.weight" then
    match getMTBL k with
    | .error e => .error e
    | .ok (_, b, _) =>
      match lookup (pyReplace k "k.weight" "v.weight") with
      | none => .error ("KeyError: " ++ pyReplace k "k.weight" "v.weight")
      | some vw =>
        .ok (some (mkLayerKey "decoder" b "inter_attention.key_value.weight", v ++ vw))
  else if strHas k "EncDecAttention.v.weight" then .ok none
  else if strHas k "EncDecAttention.q.weight" then
    match getMTBL k with
    | .error e => .error e
    | .ok (_, b, _) => .ok (some (mkLayerKey "decoder" b "inter_attention.query.weight", v))
  else if strHas k "EncDecAttention.o.weight" then
    match getMTBL k with
    | .error e => .error e
    | .ok (_, b, _) => .ok (some (mkLayerKey "decoder" b "inter_attention.dense.weight", v))
  else if strHas k "DenseReluDense.wi_0.weight" then
    match getMTBL k with
    | .error e => .error e
    | .ok (mt, b, _) => .ok (some (mkLayerKey mt b "mlp.dense_h_to_4h.weight", v))
  else if strHas k "DenseReluDense.wi_1.weight" then
    match getMTBL k with
    | .error e => .error e
    | .ok (mt, b, _) => .ok (some (mkLayerKey mt b "mlp.dense_h_to_4h_2.weight", v))
  else if strHas k "DenseReluDense.wo.weight" then
    match getMTBL k with
    | .error e => .error e
    | .ok (mt, b, _) => .ok (some (mkLayerKey mt b "mlp.dense_4h_to_h.weight", v))
  else if strHas k "layer_norm" then
    if strHas k "final" then
      .ok (some (mkFinalKey (if strStarts k "encoder" then "encoder" else "decoder"), v))
    else
      match getMTBL k with
      | .error e => .error e
      | .ok (mt, b, ln) =>
        if ln = 0 ∧ mt = "encoder" then
          .ok (some (mkLayerKey mt b "input_layernorm.weight", v))
        else if ln = 1 ∧ mt = "encoder" then
          .ok (some (mkLayerKey mt b "post_attention_layernorm.weight", v))
        else if ln = 0 ∧ mt = "decoder" then
          .ok (some (mkLayerKey mt b "input_layernorm.weight", v))
        else if ln = 1 ∧ mt = "decoder" then
          .ok (some (mkLayerKey mt b "post_attention_layernorm.weight", v))
        else if ln = 2 ∧ mt = "decoder" then
          .ok (some (mkLayerKey mt b "post_inter_attention_layernorm.weight", v))
        else .error ("Unknown layer_norm key: " ++ k)
  else .error ("Unknown key: " ++ k)

/-- Assignment `nemo_weights[tk] = tv` on the ordered target dictionary:
replace in place when the key exists, append otherwise. -/
def insertOD (acc : List (String × Tensor)) (tk : String) (tv : Tensor) :
    List (String × Tensor) :=
  if acc.any (fun p => p.1 == tk) then
    acc.map (fun p => if p.1 == tk then (tk, tv) else p)
  else acc ++ [(tk, tv)]

/-- Dictionary lookup `hf_weights[key]` into the source checkpoint. -/
def srcLookup (src : List (String × Tensor)) : String → Option Tensor :=
  fun a => List.lookup a src

/-- The conversion loop: fold over the source items in order, threading the
target dictionary; a raised exception aborts the whole run. -/
def convertGo (lookup : String → Option Tensor) :
    List (String × Tensor) → List (String × Tensor) →
    Except String (List (String × Tensor))
  | [], acc => .ok acc
  | (k, v) :: rest, acc =>
    match handleKey lookup k v with
    | .error e => .error e
    | .ok none => convertGo lookup rest acc
    | .ok (some (tk, tv)) => convertGo lookup rest (insertOD acc tk tv)

/-- `convert_weights`: build `nemo_weights` from `hf_weights`.  An `ok` result
is the finished target mapping (only then does the source reach `torch.save`);
an `error` is the fatal exception text, with nothing written. -/
def convertWeights (src : List (String × Tensor)) :
    Except String (List (String × Tensor)) :=
  convertGo (srcLookup src) src []

/-- The activation-function translation of `package_into_nemo_file`
(lines 286-291): the two recognized `dense_act_fn` identifiers, with a fatal
error naming any other identifier. -/
def mapActFn (d : String) : Except String String :=
  if d = "silu" then .ok "swiglu"
  else if d = "gelu_new" then .ok "geglu"
  else .error ("Unknown dense_act_fn: " ++ d)

/-- Per-entry contribution of the loop: the target entry a source entry
writes, if any and if it does not raise. -/
def contrib (lookup : String → Option Tensor) (p : String × Tensor) :
    Option (String × Tensor) :=
  match handleKey lookup p.1 p.2 with
  | .ok (some q) => some q
  | _ => none

/-- All target entries contributed by a source checkpoint, in source order. -/
def contribs (src : List (String × Tensor)) : List (String × Tensor) :=
  src.filterMap (contrib (srcLookup src))

/-- A key that reaches the `layer_norm` arm of the dispatch: it contains
`layer_norm` and none of the attention / feed-forward patterns checked
earlier in the chain. -/
abbrev plainLayerNormKey (k : String) : Prop :=
  strHas k "layer_norm" ∧
  ¬ strHas k "SelfAttention.q.weight" ∧ ¬ strHas k "SelfAttention.k.weight" ∧
  ¬ strHas k "SelfAttention.v.weight" ∧ ¬ strHas k "SelfAttention.o.weight" ∧
  ¬ strHas k "EncDecAttention.k.weight" ∧ ¬ strHas k "EncDecAttention.v.weight" ∧
  ¬ strHas k "EncDecAttention.q.weight" ∧ ¬ strHas k "EncDecAttention.o.weight" ∧
  ¬ strHas k "DenseReluDense.wi_0.weight" ∧ ¬ strHas k "DenseReluDense.wi_1.weight" ∧
  ¬ strHas k "DenseReluDense.wo.weight"

/-- A key matched by no handling rule of the dispatch chain: it reaches the
final `else` and raises `Unknown key`. -/
abbrev unmatchedKey (k : String) : Prop :=
  k ≠ "shared.weight" ∧ k ≠ "lm_head.weight" ∧
  k ≠ "decoder.embed_tokens.weight" ∧ k ≠ "encoder.embed_tokens.weight" ∧
  k ≠ "encoder.block.0.layer.0.SelfAttention.relative_attention_bias.weight" ∧
  k ≠ "decoder.block.0.layer.0.SelfAttention.relative_attention_bias.weight" ∧
  ¬ strHas k "SelfAttention.q.weight" ∧ ¬ strHas k "SelfAttention.k.weight" ∧
  ¬ strHas k "SelfAttention.v.weight" ∧ ¬ strHas k "SelfAttention.o.weight" ∧
  ¬ strHas k "EncDecAttention.k.weight" ∧ ¬ strHas k "EncDecAttention.v.weight" ∧
  ¬ strHas k "EncDecAttention.q.weight" ∧ ¬ strHas k "EncDecAttention.o.weight" ∧
  ¬ strHas k "DenseReluDense.wi_0.weight" ∧ ¬ strHas k "DenseReluDense.wi_1.weight" ∧
  ¬ strHas k "DenseReluDense.wo.weight" ∧ ¬ strHas k "layer_norm"

/-- Source keys of one encoder block of the synthetic checkpoint, each tensor
a distinct 1x1 marker. -/
def encBlockKeys (i : Nat) : List (String × Tensor) :=
  [ ("encoder.block." ++ toString i ++ ".layer.0.layer_norm.weight", [[100 + 20 * i]]),
    ("encoder.block." ++ toString i ++ ".layer.0.SelfAttention.q.weight", [[101 + 20 * i]]),
    ("encoder.block." ++ toString i ++ ".layer.0.SelfAttention.k.weight", [[102 + 20 * i]]),
    ("encoder.block." ++ toString i ++ ".layer.0.SelfAttention.v.weight", [[103 + 20 * i]]),
    ("encoder.block." ++ toString i ++ ".layer.0.SelfAttention.o.weight", [[104 + 20 * i]]),
    ("encoder.block." ++ toString i ++ ".layer.1.layer_norm.weight", [[105 + 20 * i]]),
    ("encoder.block." ++ toString i ++ ".layer.1.DenseReluDense.wi_0.weight", [[106 + 20 * i]]),
    ("encoder.block." ++ toString i ++ ".layer.1.DenseReluDense.wi_1.weight", [[107 + 20 * i]]),
    ("encoder.block." ++ toString i ++ ".layer.1.DenseReluDense.wo.weight", [[108 + 20 * i]]) ]

/-- Source keys of one decoder block of the synthetic checkpoint. -/
def decBlockKeys (i : Nat) : List (String × Tensor) :=
  [ ("decoder.block." ++ toString i ++ ".layer.0.layer_norm.weight", [[200 + 20 * i]]),
    ("decoder.block." ++ toString i ++ ".layer.0.SelfAttention.q.weight", [[201 + 20 * i]]),
    ("decoder.block." ++ toString i ++ ".layer.0.SelfAttention.k.weight", [[202 + 20 * i]]),
    ("decoder.block." ++ toString i ++ ".layer.0.SelfAttention.v.weight", [[203 + 20 * i]]),
    ("decoder.block." ++ toString i ++ ".layer.0.SelfAttention.o.weight", [[204 + 20 * i]]),
    ("decoder.block." ++ toString i ++ ".layer.1.layer_norm.weight", [[205 + 20 * i]]),
    ("decoder.block." ++ toString i ++ ".layer.1.EncDecAttention.q.weight", [[206 + 20 * i]]),
    ("decoder.block." ++ toString i ++ ".layer.1.EncDecAttention.k.weight", [[207 + 20 * i]]),
    ("decoder.block." ++ toString i ++ ".layer.1.EncDecAttention.v.weight", [[208 + 20 * i]]),
    ("decoder.block." ++ toString i ++ ".layer.1.EncDecAttention.o.weight", [[209 + 20 * i]]),
    ("decoder.block." ++ toString i ++ ".layer.2.layer_norm.weight", [[210 + 20 * i]]),
    ("decoder.block." ++ toString i ++ ".layer.2.DenseReluDense.wi_0.weight", [[211 + 20 * i]]),
    ("decoder.block." ++ toString i ++ ".layer.2.DenseReluDense.wi_1.weight", [[212 + 20 * i]]),
    ("decoder.block." ++ toString i ++ ".layer.2.DenseReluDense.wo.weight", [[213 + 20 * i]]) ]

/-- A synthetic source checkpoint drawn from the full recognized pattern set:
embeddings, head, both relative-position biases, two encoder and two decoder
blocks with every per-block pattern, and both final layer norms. -/
def syntheticSrc : List (String × Tensor) :=
  [ ("shared.weight", [[1]]),
    ("encoder.embed_tokens.weight", [[2]]),
    ("decoder.embed_tokens.weight", [[3]]),
    ("lm_head.weight", [[4]]),
    ("encoder.block.0.layer.0.SelfAttention.relative_attention_bias.weight", [[5]]),
    ("decoder.block.0.layer.0.SelfAttention.relative_attention_bias.weight", [[6]]) ]
  ++ encBlockKeys 0 ++ encBlockKeys 1
  ++ decBlockKeys 0 ++ decBlockKeys 1
  ++ [ ("encoder.final_layer_norm.weight", [[7]]),
       ("decoder.final_layer_norm.weight", [[8]]) ]

/-- The target keys the remapper must produce for `syntheticSrc`: one per
handling rule that writes an entry, none for the skipped keys. -/
def expectedTargetKeys : List String :=
  [ "enc_dec_model.encoder_embedding.word_embeddings.weight",
    "enc_dec_model.decoder_embedding.word_embeddings.weight",
    "enc_dec_model.tokens_head.weight",
    "enc_dec_model.encoder_relative_position_embedding.relative_position_embedding.weight",
    "enc_dec_model.decoder_relative_position_embedding.relative_position_embedding.weight",
    "enc_dec_model.enc_dec_model.encoder.model.layers.0.input_layernorm.weight",
    "enc_dec_model.enc_dec_model.encoder.model.layers.0.self_attention.query_key_value.weight",
    "enc_dec_model.enc_dec_model.encoder.model.layers.0.self_attention.dense.weight",
    "enc_dec_model.enc_dec_model.encoder.model.layers.0.post_attention_layernorm.weight",
    "enc_dec_model.enc_dec_model.encoder.model.layers.0.mlp.dense_h_to_4h.weight",
    "enc_dec_model.enc_dec_model.encoder.model.layers.0.mlp.dense_h_to_4h_2.weight",
    "enc_dec_model.enc_dec_model.encoder.model.layers.0.mlp.dense_4h_to_h.weight",
    "enc_dec_model.enc_dec_model.encoder.model.layers.1.input_layernorm.weight",
    "enc_dec_model.enc_dec_model.encoder.model.layers.1.self_attention.query_key_value.weight",
    "enc_dec_model.enc_dec_model.encoder.model.layers.1.self_attention.dense.weight",
    "enc_dec_model.enc_dec_model.encoder.model.layers.1.post_attention_layernorm.weight",
    "enc_dec_model.enc_dec_model.encoder.model.layers.1.mlp.dense_h_to_4h.weight",
    "enc_dec_model.enc_dec_model.encoder.model.layers.1.mlp.dense_h_to_4h_2.weight",
    "enc_dec_model.enc_dec_model.encoder.model.layers.1.mlp.dense_4h_to_h.weight",
    "enc_dec_model.enc_dec_model.decoder.model.layers.0.input_layernorm.weight",
    "enc_dec_model.enc_dec_model.decoder.model.layers.0.self_attention.query_key_value.weight",
    "enc_dec_model.enc_dec_model.decoder.model.layers.0.self_attention.dense.weight",
    "enc_dec_model.enc_dec_model.decoder.model.layers.0.post_attention_layernorm.weight",
    "enc_dec_model.enc_dec_model.decoder.model.layers.0.inter_attention.query.weight",
    "enc_dec_model.enc_dec_model.decoder.model.layers.0.inter_attention.key_value.weight",
    "enc_dec_model.enc_dec_model.decoder.model.layers.0.inter_attention.dense.weight",
    "enc_dec_model.enc_dec_model.decoder.model.layers.0.post_inter_attention_layernorm.weight",
    "enc_dec_model.enc_dec_model.decoder.model.layers.0.mlp.dense_h_to_4h.weight",
    "enc_dec_model.enc_dec_model.decoder.model.layers.0.mlp.dense_h_to_4h_2.weight",
    "enc_dec_model.enc_dec_model.decoder.model.layers.0.mlp.dense_4h_to_h.weight",
    "enc_dec_model.enc_dec_model.decoder.model.layers.1.input_layernorm.weight",
    "enc_dec_model.enc_dec_model.decoder.model.layers.1.self_attention.query_key_value.weight",
    "enc_dec_model.enc_dec_model.decoder.model.layers.1.self_attention.dense.weight",
    "enc_dec_model.enc_dec_model.decoder.model.layers.1.post_attention_layernorm.weight",
    "enc_dec_model.enc_dec_model.decoder.model.layers.1.inter_attention.query.weight",
    "enc_dec_model.enc_dec_model.decoder.model.layers.1.inter_attention.key_value.weight",
    "enc_dec_model.enc_dec_model.decoder.model.layers.1.inter_attention.dense.weight",
    "enc_dec_model.enc_dec_model.decoder.model.layers.1.post_inter_attention_layernorm.weight",
    "enc_dec_model.enc_dec_model.decoder.model.layers.1.mlp.dense_h_to_4h.weight",
    "enc_dec_model.enc_dec_model.decoder.model.layers.1.mlp.dense_h_to_4h_2.weight",
    "enc_dec_model.enc_dec_model.decoder.model.layers.1.mlp.dense_4h_to_h.weight",
    "enc_dec_model.enc_dec_model.encoder.model.final_layernorm.weight",
    "enc_dec_model.enc_dec_model.decoder.model.final_layernorm.weight" ]

/-! Helper lemmas. -/

theorem ne_of_hasPat (k pat c : String) (h : strHas k pat) (hc : ¬ strHas c pat) : k ≠ c :=
  fun e => hc (e ▸ h)

/-- C6: The activation-function translation maps "silu" to "swiglu" and
"gelu_new" to "geglu", and any other identifier raises a fatal error whose
message names that identifier. -/
theorem actFn_translation :
    mapActFn "silu" = .ok "swiglu"
    ∧ mapActFn "gelu_new" = .ok "geglu"
    ∧ ∀ d : String, d ≠ "silu" → d ≠ "gelu_new" →
        mapActFn d = .error ("Unknown dense_act_fn: " ++ d) := by
  refine ⟨rfl, rfl, ?_⟩
  intro d h1 h2
  unfold mapActFn
  rw [if_neg h1, if_neg h2]

theorem actFn_translation_witness :
    mapActFn "relu" = .error "Unknown dense_act_fn: relu" :=
  actFn_translation.2.2 "relu" (by decide) (by decide)

set_option maxRecDepth 10000 in
/-- C1: For a self-attention query-projection key whose key/value siblings
resolve to (H, H) tensors, the remapper writes the single fused (3H, H)
query_key_value tensor, rows ordered query then key then value, and the
sibling key/value projection keys themselves produce no target entry. -/
theorem selfAttn_qkv_fusion
    (lookup : String → Option Tensor) (k : String) (q kw vw : Tensor)
    (mt : String) (b ln : Int) (H : Nat)
    (hq : strHas k "SelfAttention.q.weight")
    (hp : getMTBL k = .ok (mt, b, ln))
    (hkw : lookup (pyReplace k "q.weight" "k.weight") = some kw)
    (hvw : lookup (pyReplace k "q.weight" "v.weight") = some vw)
    (hqs : tensorShape q H H) (hks : tensorShape kw H H) (hvs : tensorShape vw H H) :
    handleKey lookup k q
      = .ok (some (mkLayerKey mt b "self_attention.query_key_value.weight", q ++ kw ++ vw))
    ∧ tensorShape (q ++ kw ++ vw) (3 * H) H
    ∧ (q ++ kw ++ vw).take H = q
    ∧ ((q ++ kw ++ vw).drop H).take H = kw
    ∧ (q ++ kw ++ vw).drop (2 * H) = vw
    ∧ (∀ k' v', (strHas k' "SelfAttention.k.weight" ∨ strHas k' "SelfAttention.v.weight") →
        ¬ strHas k' "SelfAttention.q.weight" → handleKey lookup k' v' = .ok none) := by
  refine ⟨?_, ⟨?_, ?_⟩, ?_, ?_, ?_, ?_⟩
  · unfold handleKey
    rw [if_neg (ne_of_hasPat k _ _ hq (by decide)),
        if_neg (ne_of_hasPat k _ _ hq (by decide)),
        if_neg (ne_of_hasPat k _ _ hq (by decide)),
        if_neg (ne_of_hasPat k _ _ hq (by decide)),
        if_neg (ne_of_hasPat k _ _ hq (by decide)),
        if_neg (ne_of_hasPat k _ _ hq (by decide)),
        if_pos hq, hp]
    simp only [hkw, hvw]
  · simp [List.length_append, hqs.1, hks.1, hvs.1]; ring
  · intro row hrow
    rcases List.mem_append.mp hrow with h1 | h1
    · rcases List.mem_append.mp h1 with h2 | h2
      · exact hqs.2 row h2
      · exact hks.2 row h2
    · exact hvs.2 row h1
  · rw [List.append_assoc, ← hqs.1, List.take_left]
  · rw [List.append_assoc, ← hqs.1, List.drop_left, hqs.1, ← hks.1, List.take_left]
  · have hl : (q ++ kw).length = 2 * H := by simp [hqs.1, hks.1]; ring
    rw [← hl, List.drop_left]
  · intro k' v' hkv hnq
    unfold handleKey
    have hx : ∀ c : String, (¬ strHas c "SelfAttention.k.weight") →
        (¬ strHas c "SelfAttention.v.weight") → k' ≠ c := by
      intro c hc1 hc2 e
      rcases hkv with h | h
      · exact hc1 (e ▸ h)
      · exact hc2 (e ▸ h)
    rw [if_neg (hx _ (by decide) (by decide)),
        if_neg (hx _ (by decide) (by decide)),
        if_neg (hx _ (by decide) (by decide)),
        if_neg (hx _ (by decide) (by decide)),
        if_neg (hx _ (by decide) (by decide)),
        if_neg (hx _ (by decide) (by decide)),
        if_neg hnq, if_pos hkv]

set_option maxRecDepth 10000 in
theorem selfAttn_qkv_fusion_witness :
    handleKey
      (srcLookup
        [ ("encoder.block.0.layer.0.SelfAttention.q.weight", [[1, 2], [3, 4]]),
          ("encoder.block.0.layer.0.SelfAttention.k.weight", [[5, 6], [7, 8]]),
          ("encoder.block.0.layer.0.SelfAttention.v.weight", [[9, 10], [11, 12]]) ])
      "encoder.block.0.layer.0.SelfAttention.q.weight" [[1, 2], [3, 4]]
      = .ok (some (mkLayerKey "encoder" 0 "self_attention.query_key_value.weight",
          [[1, 2], [3, 4], [5, 6], [7, 8], [9, 10], [11, 12]]))
    ∧ handleKey
      (srcLookup
        [ ("encoder.block.0.layer.0.SelfAttention.q.weight", [[1, 2], [3, 4]]),
          ("encoder.block.0.layer.0.SelfAttention.k.weight", [[5, 6], [7, 8]]),
          ("encoder.block.0.layer.0.SelfAttention.v.weight", [[9, 10], [11, 12]]) ])
      "encoder.block.0.layer.0.SelfAttention.k.weight" [[5, 6], [7, 8]] = .ok none := by
  have h := selfAttn_qkv_fusion
    (srcLookup
      [ ("encoder.block.0.layer.0.SelfAttention.q.weight", [[1, 2], [3, 4]]),
        ("encoder.block.0.layer.0.SelfAttention.k.weight", [[5, 6], [7, 8]]),
        ("encoder.block.0.layer.0.SelfAttention.v.weight", [[9, 10], [11, 12]]) ])
    "encoder.block.0.layer.0.SelfAttention.q.weight"
    [[1, 2], [3, 4]] [[5, 6], [7, 8]] [[9, 10], [11, 12]]
    "encoder" 0 0 2 (by decide) (by rfl) (by rfl) (by rfl)
    (by decide) (by decide) (by decide)
  exact ⟨h.1, h.2.2.2.2.2 "encoder.block.0.layer.0.SelfAttention.k.weight"
    [[5, 6], [7, 8]] (Or.inl (by decide)) (by decide)⟩

theorem handleKey_unmatched (lookup : String → Option Tensor) (k : String) (v : Tensor)
    (hu : unmatchedKey k) : handleKey lookup k v = .error ("Unknown key: " ++ k) := by
  obtain ⟨e1, e2, e3, e4, e5, e6, n1, n2, n3, n4, n5, n6, n7, n8, n9, n10, n11, n12⟩ := hu
  unfold handleKey
  rw [if_neg e1, if_neg e2, if_neg e3, if_neg e4, if_neg e5, if_neg e6,
      if_neg n1, if_neg (by rintro (h | h); exacts [n2 h, n3 h]), if_neg n4,
      if_neg n5, if_neg n6, if_neg n7, if_neg n8, if_neg n9, if_neg n10,
      if_neg n11, if_neg n12]

theorem convertGo_error_of_mem (lookup : String → Option Tensor) :
    ∀ (l : List (String × Tensor)) (k : String) (v : Tensor) (e : String),
    (k, v) ∈ l → handleKey lookup k v = .error e →
    ∀ acc, ∃ e', convertGo lookup l acc = .error e' := by
  intro l
  induction l with
  | nil => intro k v e hmem _ _; cases hmem
  | cons p rest ih =>
    intro k v e hmem he acc
    obtain ⟨k', v'⟩ := p
    rcases List.mem_cons.mp hmem with h | h
    · cases h
      exact ⟨e, by simp only [convertGo, he]⟩
    · cases hh : handleKey lookup k' v' with
      | error e2 => exact ⟨e2, by simp only [convertGo, hh]⟩
      | ok o =>
        cases o with
        | none =>
          obtain ⟨e', h'⟩ := ih k v e h he acc
          exact ⟨e', by simp only [convertGo, hh]; exact h'⟩
        | some q =>
          obtain ⟨tk, tv⟩ := q
          obtain ⟨e', h'⟩ := ih k v e h he (insertOD acc tk tv)
          exact ⟨e', by simp only [convertGo, hh]; exact h'⟩

theorem convertGo_unique_error (lookup : String → Option Tensor) (k : String) (e : String)
    (hek : ∀ v', handleKey lookup k v' = .error e) :
    ∀ (l : List (String × Tensor)), k ∈ l.map Prod.fst →
    (∀ p ∈ l, p.1 ≠ k → (handleKey lookup p.1 p.2).isOk = true) →
    ∀ acc, convertGo lookup l acc = .error e := by
  intro l
  induction l with
  | nil => intro hmem _ _; simp at hmem
  | cons p rest ih =>
    intro hmem hok acc
    obtain ⟨k', v'⟩ := p
    by_cases hk : k' = k
    · subst hk
      simp only [convertGo, hek v']
    · have hokh := hok (k', v') (List.mem_cons_self _ _) hk
      have hmem' : k ∈ rest.map Prod.fst := by
        rw [List.map_cons] at hmem
        rcases List.mem_cons.mp hmem with h | h
        · exact absurd h.symm hk
        · exact h
      cases hh : handleKey lookup k' v' with
      | error e2 =>
        rw [hh] at hokh
        exact Bool.noConfusion hokh
      | ok o =>
        cases o with
        | none =>
          simp only [convertGo, hh]
          exact ih hmem' (fun p hp hne => hok p (List.mem_cons_of_mem _ hp) hne) acc
        | some q =>
          obtain ⟨tk, tv⟩ := q
          simp only [convertGo, hh]
          exact ih hmem' (fun p hp hne => hok p (List.mem_cons_of_mem _ hp) hne) (insertOD acc tk tv)

/-- C3: A source mapping containing a key matched by no handling rule makes
the per-key dispatch raise `Unknown key` naming that exact key, the whole
conversion halts with no output mapping produced, and when every other entry
is handled cleanly the reported fatal error is exactly that key's. -/
theorem unknown_key_fatal (src : List (String × Tensor)) (k : String) (v : Tensor)
    (hmem : (k, v) ∈ src) (hu : unmatchedKey k) :
    handleKey (srcLookup src) k v = .error ("Unknown key: " ++ k)
    ∧ (convertWeights src).isOk = false
    ∧ ((∀ p ∈ src, p.1 ≠ k → (handleKey (srcLookup src) p.1 p.2).isOk = true) →
        convertWeights src = .error ("Unknown key: " ++ k)) := by
  have hk := handleKey_unmatched (srcLookup src) k v hu
  refine ⟨hk, ?_, ?_⟩
  · obtain ⟨e', h'⟩ := convertGo_error_of_mem (srcLookup src) src k v _ hmem hk []
    rw [convertWeights, h']
    rfl
  · intro hok
    have hmk : k ∈ src.map Prod.fst := by
      exact List.mem_map.mpr ⟨(k, v), hmem, rfl⟩
    exact convertGo_unique_error (srcLookup src) k _
      (fun v' => handleKey_unmatched _ k v' hu) src hmk hok []

set_option maxRecDepth 10000 in
theorem unknown_key_fatal_witness :
    convertWeights [("encoder.block.0.layer.0.SelfAttention.unexpected.weight", [[1]])]
      = .error ("Unknown key: " ++ "encoder.block.0.layer.0.SelfAttention.unexpected.weight") :=
  (unknown_key_fatal
    [("encoder.block.0.layer.0.SelfAttention.unexpected.weight", [[1]])]
    "encoder.block.0.layer.0.SelfAttention.unexpected.weight" [[1]]
    (by decide) (by decide)).2.2 (by decide)

theorem handleKey_qkv_arm (lookup : String → Option Tensor) (k : String) (v : Tensor)
    (hq : strHas k "SelfAttention.q.weight") :
    handleKey lookup k v =
      match getMTBL k with
      | .error e => .error e
      | .ok (mt, b, _) =>
        match lookup (pyReplace k "q.weight" "k.weight") with
        | none => .error ("KeyError: " ++ pyReplace k "q.weight" "k.weight")
        | some kw =>
          match lookup (pyReplace k "q.weight" "v.weight") with
          | none => .error ("KeyError: " ++ pyReplace k "q.weight" "v.weight")
          | some vw =>
            .ok (some (mkLayerKey mt b "self_attention.query_key_value.weight", v ++ kw ++ vw)) := by
  unfold handleKey
  rw [if_neg (ne_of_hasPat k _ _ hq (by decide)),
      if_neg (ne_of_hasPat k _ _ hq (by decide)),
      if_neg (ne_of_hasPat k _ _ hq (by decide)),
      if_neg (ne_of_hasPat k _ _ hq (by decide)),
      if_neg (ne_of_hasPat k _ _ hq (by decide)),
      if_neg (ne_of_hasPat k _ _ hq (by decide)),
      if_pos hq]

theorem handleKey_edak_arm (lookup : String → Option Tensor) (k : String) (v : Tensor)
    (hk : strHas k "EncDecAttention.k.weight")
    (hnq : ¬ strHas k "SelfAttention.q.weight") (hnk : ¬ strHas k "SelfAttention.k.weight")
    (hnv : ¬ strHas k "SelfAttention.v.weight") (hno : ¬ strHas k "SelfAttention.o.weight") :
    handleKey lookup k v =
      match getMTBL k with
      | .error e => .error e
      | .ok (_, b, _) =>
        match lookup (pyReplace k "k.weight" "v.weight") with
        | none => .error ("KeyError: " ++ pyReplace k "k.weight" "v.weight")
        | some vw =>
          .ok (some (mkLayerKey "decoder" b "inter_attention.key_value.weight", v ++ vw)) := by
  unfold handleKey
  rw [if_neg (ne_of_hasPat k _ _ hk (by decide)),
      if_neg (ne_of_hasPat k _ _ hk (by decide)),
      if_neg (ne_of_hasPat k _ _ hk (by decide)),
      if_neg (ne_of_hasPat k _ _ hk (by decide)),
      if_neg (ne_of_hasPat k _ _ hk (by decide)),
      if_neg (ne_of_hasPat k _ _ hk (by decide)),
      if_neg hnq, if_neg (by rintro (h | h); exacts [hnk h, hnv h]), if_neg hno,
      if_pos hk]

/-- C5: When a fusion trigger key is present but a required sibling is absent
from the source mapping — a self-attention query key without its key or value
sibling, or a cross-attention key-projection key without its value sibling —
the conversion aborts with a fatal error and produces no output mapping. -/
theorem missing_sibling_fatal (src : List (String × Tensor)) (k : String) (v : Tensor)
    (hmem : (k, v) ∈ src)
    (hcase :
      (strHas k "SelfAttention.q.weight"
        ∧ (srcLookup src (pyReplace k "q.weight" "k.weight") = none
           ∨ srcLookup src (pyReplace k "q.weight" "v.weight") = none))
      ∨ (strHas k "EncDecAttention.k.weight"
        ∧ ¬ strHas k "SelfAttention.q.weight" ∧ ¬ strHas k "SelfAttention.k.weight"
        ∧ ¬ strHas k "SelfAttention.v.weight" ∧ ¬ strHas k "SelfAttention.o.weight"
        ∧ srcLookup src (pyReplace k "k.weight" "v.weight") = none)) :
    (convertWeights src).isOk = false := by
  have herr : ∃ e, handleKey (srcLookup src) k v = .error e := by
    rcases hcase with ⟨hq, hlk⟩ | ⟨hk, hnq, hnk, hnv, hno, hlv⟩
    · cases hg : getMTBL k with
      | error e =>
        refine ⟨e, ?_⟩
        rw [handleKey_qkv_arm (srcLookup src) k v hq, hg]
      | ok trip =>
        obtain ⟨mt, b, ln⟩ := trip
        cases hl1 : srcLookup src (pyReplace k "q.weight" "k.weight") with
        | none =>
          refine ⟨"KeyError: " ++ pyReplace k "q.weight" "k.weight", ?_⟩
          rw [handleKey_qkv_arm (srcLookup src) k v hq, hg]
          dsimp only
          rw [hl1]
        | some kw =>
          have hl2 : srcLookup src (pyReplace k "q.weight" "v.weight") = none := by
            rcases hlk with h | h
            · rw [hl1] at h; cases h
            · exact h
          refine ⟨"KeyError: " ++ pyReplace k "q.weight" "v.weight", ?_⟩
          rw [handleKey_qkv_arm (srcLookup src) k v hq, hg]
          dsimp only
          rw [hl1, hl2]
    · cases hg : getMTBL k with
      | error e =>
        refine ⟨e, ?_⟩
        rw [handleKey_edak_arm (srcLookup src) k v hk hnq hnk hnv hno, hg]
      | ok trip =>
        obtain ⟨mt, b, ln⟩ := trip
        refine ⟨"KeyError: " ++ pyReplace k "k.weight" "v.weight", ?_⟩
        rw [handleKey_edak_arm (srcLookup src) k v hk hnq hnk hnv hno, hg]
        dsimp only
        rw [hlv]
  obtain ⟨e, he⟩ := herr
  obtain ⟨e', h'⟩ := convertGo_error_of_mem (srcLookup src) src k v e hmem he []
  rw [convertWeights, h']
  rfl

set_option maxRecDepth 10000 in
theorem missing_sibling_fatal_witness :
    (convertWeights [("encoder.block.0.layer.0.SelfAttention.q.weight", [[1]])]).isOk
      = false :=
  missing_sibling_fatal [("encoder.block.0.layer.0.SelfAttention.q.weight", [[1]])]
    "encoder.block.0.layer.0.SelfAttention.q.weight" [[1]]
    (by decide) (Or.inl ⟨by decide, Or.inl (by rfl)⟩)

set_option maxRecDepth 10000 in
/-- C4: For a cross-attention key-projection key whose value sibling resolves
to an (H, H) tensor, the remapper writes the single fused (2H, H) key_value
tensor, key rows first then value rows, while a cross-attention
query-projection key is directly renamed to the inter_attention query target,
not fused. -/
theorem crossAttn_kv_fusion
    (lookup : String → Option Tensor) (k : String) (kv vw : Tensor)
    (mt : String) (b ln : Int) (H : Nat)
    (hk : strHas k "EncDecAttention.k.weight")
    (hnq : ¬ strHas k "SelfAttention.q.weight") (hnk : ¬ strHas k "SelfAttention.k.weight")
    (hnv : ¬ strHas k "SelfAttention.v.weight") (hno : ¬ strHas k "SelfAttention.o.weight")
    (hp : getMTBL k = .ok (mt, b, ln))
    (hvw : lookup (pyReplace k "k.weight" "v.weight") = some vw)
    (hks : tensorShape kv H H) (hvs : tensorShape vw H H) :
    handleKey lookup k kv
      = .ok (some (mkLayerKey "decoder" b "inter_attention.key_value.weight", kv ++ vw))
    ∧ tensorShape (kv ++ vw) (2 * H) H
    ∧ (kv ++ vw).take H = kv
    ∧ (kv ++ vw).drop H = vw
    ∧ (∀ k' v' mt' b' ln', strHas k' "EncDecAttention.q.weight" →
        ¬ strHas k' "SelfAttention.q.weight" → ¬ strHas k' "SelfAttention.k.weight" →
        ¬ strHas k' "SelfAttention.v.weight" → ¬ strHas k' "SelfAttention.o.weight" →
        ¬ strHas k' "EncDecAttention.k.weight" → ¬ strHas k' "EncDecAttention.v.weight" →
        getMTBL k' = .ok (mt', b', ln') →
        handleKey lookup k' v'
          = .ok (some (mkLayerKey "decoder" b' "inter_attention.query.weight", v'))) := by
  refine ⟨?_, ⟨?_, ?_⟩, ?_, ?_, ?_⟩
  · rw [handleKey_edak_arm lookup k kv hk hnq hnk hnv hno, hp]
    dsimp only
    rw [hvw]
  · simp [List.length_append, hks.1, hvs.1]; ring
  · intro row hrow
    rcases List.mem_append.mp hrow with h1 | h1
    · exact hks.2 row h1
    · exact hvs.2 row h1
  · rw [← hks.1, List.take_left]
  · rw [← hks.1, List.drop_left]
  · intro k' v' mt' b' ln' hq' hnq' hnk' hnv' hno' hnek' hnev' hp'
    unfold handleKey
    rw [if_neg (ne_of_hasPat k' _ _ hq' (by decide)),
        if_neg (ne_of_hasPat k' _ _ hq' (by decide)),
        if_neg (ne_of_hasPat k' _ _ hq' (by decide)),
        if_neg (ne_of_hasPat k' _ _ hq' (by decide)),
        if_neg (ne_of_hasPat k' _ _ hq' (by decide)),
        if_neg (ne_of_hasPat k' _ _ hq' (by decide)),
        if_neg hnq', if_neg (by rintro (h | h); exacts [hnk' h, hnv' h]), if_neg hno',
        if_neg hnek', if_neg hnev', if_pos hq', hp']

set_option maxRecDepth 10000 in
theorem crossAttn_kv_fusion_witness :
    handleKey
      (srcLookup
        [ ("decoder.block.0.layer.1.EncDecAttention.k.weight", [[1, 2], [3, 4]]),
          ("decoder.block.0.layer.1.EncDecAttention.v.weight", [[5, 6], [7, 8]]) ])
      "decoder.block.0.layer.1.EncDecAttention.k.weight" [[1, 2], [3, 4]]
      = .ok (some (mkLayerKey "decoder" 0 "inter_attention.key_value.weight",
          [[1, 2], [3, 4], [5, 6], [7, 8]]))
    ∧ handleKey
      (srcLookup
        [ ("decoder.block.0.layer.1.EncDecAttention.k.weight", [[1, 2], [3, 4]]),
          ("decoder.block.0.layer.1.EncDecAttention.v.weight", [[5, 6], [7, 8]]) ])
      "decoder.block.0.layer.1.EncDecAttention.q.weight" [[9, 10], [11, 12]]
      = .ok (some (mkLayerKey "decoder" 0 "inter_attention.query.weight",
          [[9, 10], [11, 12]])) := by
  have h := crossAttn_kv_fusion
    (srcLookup
      [ ("decoder.block.0.layer.1.EncDecAttention.k.weight", [[1, 2], [3, 4]]),
        ("decoder.block.0.layer.1.EncDecAttention.v.weight", [[5, 6], [7, 8]]) ])
    "decoder.block.0.layer.1.EncDecAttention.k.weight"
    [[1, 2], [3, 4]] [[5, 6], [7, 8]] "decoder" 0 1 2
    (by decide) (by decide) (by decide) (by decide) (by decide)
    (by rfl) (by rfl) (by decide) (by decide)
  exact ⟨h.1, h.2.2.2.2 "decoder.block.0.layer.1.EncDecAttention.q.weight"
    [[9, 10], [11, 12]] "decoder" 0 1 (by decide) (by decide) (by decide) (by decide)
    (by decide) (by decide) (by decide) (by rfl)⟩

set_option maxRecDepth 10000 in
/-- C7: A layer-normalization key is classified by root module and sub-layer
index: encoder 0 to input_layernorm, encoder 1 to post_attention_layernorm,
decoder 0 to input_layernorm, decoder 1 to post_attention_layernorm,
decoder 2 to post_inter_attention_layernorm; a key containing `final` goes to
that module's final_layernorm; every other combination is a fatal error
naming the key. -/
theorem layerNorm_classification (lookup : String → Option Tensor) (k : String) (v : Tensor)
    (h : plainLayerNormKey k) :
    (strHas k "final" → handleKey lookup k v =
        .ok (some (mkFinalKey (if strStarts k "encoder" then "encoder" else "decoder"), v)))
    ∧ (¬ strHas k "final" → ∀ mt b ln, getMTBL k = .ok (mt, b, ln) →
        ((ln = 0 ∧ mt = "encoder" →
            handleKey lookup k v = .ok (some (mkLayerKey mt b "input_layernorm.weight", v)))
        ∧ (ln = 1 ∧ mt = "encoder" →
            handleKey lookup k v
              = .ok (some (mkLayerKey mt b "post_attention_layernorm.weight", v)))
        ∧ (ln = 0 ∧ mt = "decoder" →
            handleKey lookup k v = .ok (some (mkLayerKey mt b "input_layernorm.weight", v)))
        ∧ (ln = 1 ∧ mt = "decoder" →
            handleKey lookup k v
              = .ok (some (mkLayerKey mt b "post_attention_layernorm.weight", v)))
        ∧ (ln = 2 ∧ mt = "decoder" →
            handleKey lookup k v
              = .ok (some (mkLayerKey mt b "post_inter_attention_layernorm.weight", v)))
        ∧ (¬ (ln = 0 ∧ mt = "encoder") → ¬ (ln = 1 ∧ mt = "encoder") →
            ¬ (ln = 0 ∧ mt = "decoder") → ¬ (ln = 1 ∧ mt = "decoder") →
            ¬ (ln = 2 ∧ mt = "decoder") →
            handleKey lookup k v = .error ("Unknown layer_norm key: " ++ k)))) := by
  obtain ⟨hln, n1, n2, n3, n4, n5, n6, n7, n8, n9, n10, n11⟩ := h
  have hbase : handleKey lookup k v =
      (if strHas k "final" then
        .ok (some (mkFinalKey (if strStarts k "encoder" then "encoder" else "decoder"), v))
      else
        match getMTBL k with
        | .error e => .error e
        | .ok (mt, b, ln) =>
          if ln = 0 ∧ mt = "encoder" then
            .ok (some (mkLayerKey mt b "input_layernorm.weight", v))
          else if ln = 1 ∧ mt = "encoder" then
            .ok (some (mkLayerKey mt b "post_attention_layernorm.weight", v))
          else if ln = 0 ∧ mt = "decoder" then
            .ok (some (mkLayerKey mt b "input_layernorm.weight", v))
          else if ln = 1 ∧ mt = "decoder" then
            .ok (some (mkLayerKey mt b "post_attention_layernorm.weight", v))
          else if ln = 2 ∧ mt = "decoder" then
            .ok (some (mkLayerKey mt b "post_inter_attention_layernorm.weight", v))
          else .error ("Unknown layer_norm key: " ++ k)) := by
    unfold handleKey
    rw [if_neg (ne_of_hasPat k _ _ hln (by decide)),
        if_neg (ne_of_hasPat k _ _ hln (by decide)),
        if_neg (ne_of_hasPat k _ _ hln (by decide)),
        if_neg (ne_of_hasPat k _ _ hln (by decide)),
        if_neg (ne_of_hasPat k _ _ hln (by decide)),
        if_neg (ne_of_hasPat k _ _ hln (by decide)),
        if_neg n1, if_neg (by rintro (hx | hx); exacts [n2 hx, n3 hx]), if_neg n4,
        if_neg n5, if_neg n6, if_neg n7, if_neg n8, if_neg n9, if_neg n10,
        if_neg n11, if_pos hln]
  constructor
  · intro hf
    rw [hbase, if_pos hf]
  · intro hf mt b ln hp
    rw [hbase, if_neg hf, hp]
    dsimp only
    refine ⟨?_, ?_, ?_, ?_, ?_, ?_⟩
    · intro hc
      rw [if_pos hc]
    · intro hc
      rw [if_neg (fun hx => by rw [hc.1] at hx; exact absurd hx.1 (by decide)),
          if_pos hc]
    · intro hc
      rw [if_neg (fun hx => by rw [hc.2] at hx; exact absurd hx.2 (by decide)),
          if_neg (fun hx => by rw [hc.2] at hx; exact absurd hx.2 (by decide)),
          if_pos hc]
    · intro hc
      rw [if_neg (fun hx => by rw [hc.1] at hx; exact absurd hx.1 (by decide)),
          if_neg (fun hx => by rw [hc.2] at hx; exact absurd hx.2 (by decide)),
          if_neg (fun hx => by rw [hc.1] at hx; exact absurd hx.1 (by decide)),
          if_pos hc]
    · intro hc
      rw [if_neg (fun hx => by rw [hc.1] at hx; exact absurd hx.1 (by decide)),
          if_neg (fun hx => by rw [hc.1] at hx; exact absurd hx.1 (by decide)),
          if_neg (fun hx => by rw [hc.1] at hx; exact absurd hx.1 (by decide)),
          if_neg (fun hx => by rw [hc.1] at hx; exact absurd hx.1 (by decide)),
          if_pos hc]
    · intro hx1 hx2 hx3 hx4 hx5
      rw [if_neg hx1, if_neg hx2, if_neg hx3, if_neg hx4, if_neg hx5]

set_option maxRecDepth 10000 in
theorem layerNorm_classification_witness :
    handleKey (fun _ => none) "decoder.block.3.layer.2.layer_norm.weight" [[9]]
      = .ok (some (mkLayerKey "decoder" 3 "post_inter_attention_layernorm.weight", [[9]]))
    ∧ handleKey (fun _ => none) "encoder.final_layer_norm.weight" [[7]]
      = .ok (some (mkFinalKey "encoder", [[7]])) := by
  constructor
  · exact ((layerNorm_classification (fun _ => none)
      "decoder.block.3.layer.2.layer_norm.weight" [[9]] (by decide)).2
      (by decide) "decoder" 3 2 (by rfl)).2.2.2.2.1 ⟨rfl, rfl⟩
  · have h := (layerNorm_classification (fun _ => none)
      "encoder.final_layer_norm.weight" [[7]] (by decide)).1 (by decide)
    rw [if_pos (by decide : strStarts "encoder.final_layer_norm.weight" "encoder")] at h
    exact h

theorem mkLayerKey_ne (mt : String) (b : Int) (leaf c : String)
    (hc : ¬ ("enc_dec_model.enc_dec_model.".data <+: c.data)) : mkLayerKey mt b leaf ≠ c := by
  intro e
  apply hc
  rw [← e]
  unfold mkLayerKey
  rw [String.data_append]
  exact ⟨_, rfl⟩

theorem mkFinalKey_ne (mt c : String)
    (hc : ¬ ("enc_dec_model.enc_dec_model.".data <+: c.data)) : mkFinalKey mt ≠ c := by
  intro e
  apply hc
  rw [← e]
  unfold mkFinalKey
  rw [String.data_append]
  exact ⟨_, rfl⟩

set_option maxRecDepth 10000 in
/-- C9: Handling `lm_head.weight` writes exactly the tokens-head target entry,
and the decoder word-embedding target is written only when handling the
separate `decoder.embed_tokens.weight` source key, never from any other key. -/
theorem lm_head_tokens_head_only (lookup : String → Option Tensor) (v : Tensor) :
    handleKey lookup "lm_head.weight" v = .ok (some ("enc_dec_model.tokens_head.weight", v))
    ∧ handleKey lookup "decoder.embed_tokens.weight" v
        = .ok (some ("enc_dec_model.decoder_embedding.word_embeddings.weight", v))
    ∧ (∀ k w tk tv, handleKey lookup k w = .ok (some (tk, tv)) →
        tk = "enc_dec_model.decoder_embedding.word_embeddings.weight" →
        k = "decoder.embed_tokens.weight") := by
  refine ⟨rfl, rfl, ?_⟩
  intro k w tk tv hh htk
  unfold handleKey at hh
  by_cases h1 : k = "shared.weight"
  · rw [if_pos h1] at hh
    exact absurd hh (by simp)
  rw [if_neg h1] at hh
  by_cases h2 : k = "lm_head.weight"
  · rw [if_pos h2] at hh
    have hp2 := Option.some.inj (Except.ok.inj hh)
    injection hp2 with hA hB
    subst hA
    exact absurd htk (by decide)
  rw [if_neg h2] at hh
  by_cases h3 : k = "decoder.embed_tokens.weight"
  · exact h3
  rw [if_neg h3] at hh
  by_cases h4 : k = "encoder.embed_tokens.weight"
  · rw [if_pos h4] at hh
    have hp2 := Option.some.inj (Except.ok.inj hh)
    injection hp2 with hA hB
    subst hA
    exact absurd htk (by decide)
  rw [if_neg h4] at hh
  by_cases h5 : k = "encoder.block.0.layer.0.SelfAttention.relative_attention_bias.weight"
  · rw [if_pos h5] at hh
    have hp2 := Option.some.inj (Except.ok.inj hh)
    injection hp2 with hA hB
    subst hA
    exact absurd htk (by decide)
  rw [if_neg h5] at hh
  by_cases h6 : k = "decoder.block.0.layer.0.SelfAttention.relative_attention_bias.weight"
  · rw [if_pos h6] at hh
    have hp2 := Option.some.inj (Except.ok.inj hh)
    injection hp2 with hA hB
    subst hA
    exact absurd htk (by decide)
  rw [if_neg h6] at hh
  by_cases h7 : strHas k "SelfAttention.q.weight"
  · rw [if_pos h7] at hh
    cases hg : getMTBL k with
    | error e =>
      rw [hg] at hh
      exact absurd hh (by simp)
    | ok trip =>
      obtain ⟨mt, b, ln⟩ := trip
      rw [hg] at hh
      dsimp only at hh
      cases hl1 : lookup (pyReplace k "q.weight" "k.weight") with
      | none =>
        rw [hl1] at hh
        exact absurd hh (by simp)
      | some kw =>
        rw [hl1] at hh
        dsimp only at hh
        cases hl2 : lookup (pyReplace k "q.weight" "v.weight") with
        | none =>
          rw [hl2] at hh
          exact absurd hh (by simp)
        | some vw =>
          rw [hl2] at hh
          dsimp only at hh
          have hp2 := Option.some.inj (Except.ok.inj hh)
          injection hp2 with hA hB
          subst hA
          exact absurd htk (mkLayerKey_ne _ _ _ _ (by decide))
  rw [if_neg h7] at hh
  by_cases h8 : strHas k "SelfAttention.k.weight" ∨ strHas k "SelfAttention.v.weight"
  · rw [if_pos h8] at hh
    exact absurd hh (by simp)
  rw [if_neg h8] at hh
  by_cases h9 : strHas k "SelfAttention.o.weight"
  · rw [if_pos h9] at hh
    cases hg : getMTBL k with
    | error e =>
      rw [hg] at hh
      exact absurd hh (by simp)
    | ok trip =>
      obtain ⟨mt, b, ln⟩ := trip
      rw [hg] at hh
      dsimp only at hh
      have hp2 := Option.some.inj (Except.ok.inj hh)
      injection hp2 with hA hB
      subst hA
      exact absurd htk (mkLayerKey_ne _ _ _ _ (by decide))
  rw [if_neg h9] at hh
  by_cases h10 : strHas k "EncDecAttention.k.weight"
  · rw [if_pos h10] at hh
    cases hg : getMTBL k with
    | error e =>
      rw [hg] at hh
      exact absurd hh (by simp)
    | ok trip =>
      obtain ⟨mt, b, ln⟩ := trip
      rw [hg] at hh
      dsimp only at hh
      cases hl1 : lookup (pyReplace k "k.weight" "v.weight") with
      | none =>
        rw [hl1] at hh
        exact absurd hh (by simp)
      | some vw =>
        rw [hl1] at hh
        dsimp only at hh
        have hp2 := Option.some.inj (Except.ok.inj hh)
        injection hp2 with hA hB
        subst hA
        exact absurd htk (mkLayerKey_ne _ _ _ _ (by decide))
  rw [if_neg h10] at hh
  by_cases h11 : strHas k "EncDecAttention.v.weight"
  · rw [if_pos h11] at hh
    exact absurd hh (by simp)
  rw [if_neg h11] at hh
  by_cases h12 : strHas k "EncDecAttention.q.weight"
  · rw [if_pos h12] at hh
    cases hg : getMTBL k with
    | error e =>
      rw [hg] at hh
      exact absurd hh (by simp)
    | ok trip =>
      obtain ⟨mt, b, ln⟩ := trip
      rw [hg] at hh
      dsimp only at hh
      have hp2 := Option.some.inj (Except.ok.inj hh)
      injection hp2 with hA hB
      subst hA
      exact absurd htk (mkLayerKey_ne _ _ _ _ (by decide))
  rw [if_neg h12] at hh
  by_cases h13 : strHas k "EncDecAttention.o.weight"
  · rw [if_pos h13] at hh
    cases hg : getMTBL k with
    | error e =>
      rw [hg] at hh
      exact absurd hh (by simp)
    | ok trip =>
      obtain ⟨mt, b, ln⟩ := trip
      rw [hg] at hh
      dsimp only at hh
      have hp2 := Option.some.inj (Except.ok.inj hh)
      injection hp2 with hA hB
      subst hA
      exact absurd htk (mkLayerKey_ne _ _ _ _ (by decide))
  rw [if_neg h13] at hh
  by_cases h14 : strHas k "DenseReluDense.wi_0.weight"
  · rw [if_pos h14] at hh
    cases hg : getMTBL k with
    | error e =>
      rw [hg] at hh
      exact absurd hh (by simp)
    | ok trip =>
      obtain ⟨mt, b, ln⟩ := trip
      rw [hg] at hh
      dsimp only at hh
      have hp2 := Option.some.inj (Except.ok.inj hh)
      injection hp2 with hA hB
      subst hA
      exact absurd htk (mkLayerKey_ne _ _ _ _ (by decide))
  rw [if_neg h14] at hh
  by_cases h15 : strHas k "DenseReluDense.wi_1.weight"
  · rw [if_pos h15] at hh
    cases hg : getMTBL k with
    | error e =>
      rw [hg] at hh
      exact absurd hh (by simp)
    | ok trip =>
      obtain ⟨mt, b, ln⟩ := trip
      rw [hg] at hh
      dsimp only at hh
      have hp2 := Option.some.inj (Except.ok.inj hh)
      injection hp2 with hA hB
      subst hA
      exact absurd htk (mkLayerKey_ne _ _ _ _ (by decide))
  rw [if_neg h15] at hh
  by_cases h16 : strHas k "DenseReluDense.wo.weight"
  · rw [if_pos h16] at hh
    cases hg : getMTBL k with
    | error e =>
      rw [hg] at hh
      exact absurd hh (by simp)
    | ok trip =>
      obtain ⟨mt, b, ln⟩ := trip
      rw [hg] at hh
      dsimp only at hh
      have hp2 := Option.some.inj (Except.ok.inj hh)
      injection hp2 with hA hB
      subst hA
      exact absurd htk (mkLayerKey_ne _ _ _ _ (by decide))
  rw [if_neg h16] at hh
  by_cases h17 : strHas k "layer_norm"
  · rw [if_pos h17] at hh
    by_cases hf : strHas k "final"
    · rw [if_pos hf] at hh
      have hp2 := Option.some.inj (Except.ok.inj hh)
      injection hp2 with hA hB
      subst hA
      exact absurd htk (mkFinalKey_ne _ _ (by decide))
    rw [if_neg hf] at hh
    cases hg : getMTBL k with
    | error e =>
      rw [hg] at hh
      exact absurd hh (by simp)
    | ok trip =>
      obtain ⟨mt, b, ln⟩ := trip
      rw [hg] at hh
      dsimp only at hh
      by_cases hc1 : ln = 0 ∧ mt = "encoder"
      · rw [if_pos hc1] at hh
        have hp2 := Option.some.inj (Except.ok.inj hh)
        injection hp2 with hA hB
        subst hA
        exact absurd htk (mkLayerKey_ne _ _ _ _ (by decide))
      rw [if_neg hc1] at hh
      by_cases hc2 : ln = 1 ∧ mt = "encoder"
      · rw [if_pos hc2] at hh
        have hp2 := Option.some.inj (Except.ok.inj hh)
        injection hp2 with hA hB
        subst hA
        exact absurd htk (mkLayerKey_ne _ _ _ _ (by decide))
      rw [if_neg hc2] at hh
      by_cases hc3 : ln = 0 ∧ mt = "decoder"
      · rw [if_pos hc3] at hh
        have hp2 := Option.some.inj (Except.ok.inj hh)
        injection hp2 with hA hB
        subst hA
        exact absurd htk (mkLayerKey_ne _ _ _ _ (by decide))
      rw [if_neg hc3] at hh
      by_cases hc4 : ln = 1 ∧ mt = "decoder"
      · rw [if_pos hc4] at hh
        have hp2 := Option.some.inj (Except.ok.inj hh)
        injection hp2 with hA hB
        subst hA
        exact absurd htk (mkLayerKey_ne _ _ _ _ (by decide))
      rw [if_neg hc4] at hh
      by_cases hc5 : ln = 2 ∧ mt = "decoder"
      · rw [if_pos hc5] at hh
        have hp2 := Option.some.inj (Except.ok.inj hh)
        injection hp2 with hA hB
        subst hA
        exact absurd htk (mkLayerKey_ne _ _ _ _ (by decide))
      rw [if_neg hc5] at hh
      exact absurd hh (by simp)
  rw [if_neg h17] at hh
  exact absurd hh (by simp)

theorem lm_head_tokens_head_only_witness :
    handleKey (fun _ => none) "lm_head.weight" [[4]]
      = .ok (some ("enc_dec_model.tokens_head.weight", [[4]]))
    ∧ "decoder.embed_tokens.weight" = "decoder.embed_tokens.weight" :=
  ⟨(lm_head_tokens_head_only (fun _ => none) [[4]]).1,
   (lm_head_tokens_head_only (fun _ => none) [[4]]).2.2 "decoder.embed_tokens.weight" [[3]]
     "enc_dec_model.decoder_embedding.word_embeddings.weight" [[3]] (by rfl) (by rfl)⟩

set_option maxRecDepth 100000 in
/-- C2: On a synthetic source checkpoint drawn from the full recognized
pattern set, the conversion succeeds and produces exactly the expected target
keys, with no extras and no omissions. -/
theorem convert_synthetic_exact_target_keys :
    (convertWeights syntheticSrc).map (fun m => m.map (fun p => p.1))
      = .ok expectedTargetKeys := by
  rfl

theorem lookup_eq_of_perm {l1 l2 : List (String × Tensor)} (hp : l1.Perm l2) :
    (l1.map Prod.fst).Nodup → ∀ a, List.lookup a l1 = List.lookup a l2 := by
  induction hp with
  | nil => intro _ a; rfl
  | cons p t ih =>
    intro hnd a
    obtain ⟨k0, v0⟩ := p
    cases hb : (a == k0)
    · simp only [List.lookup, hb]
      refine ih ?_ a
      simp only [List.map_cons, List.nodup_cons] at hnd
      exact hnd.2
    · simp only [List.lookup, hb]
  | swap x y l =>
    intro hnd a
    obtain ⟨kx, vx⟩ := x
    obtain ⟨ky, vy⟩ := y
    have hxy : ky ≠ kx := by
      simp only [List.map_cons, List.nodup_cons, List.mem_cons] at hnd
      exact fun e => hnd.1 (Or.inl e)
    cases hb1 : (a == ky) <;> cases hb2 : (a == kx) <;>
      simp only [List.lookup, hb1, hb2]
    exact absurd ((eq_of_beq hb1).symm.trans (eq_of_beq hb2)) hxy
  | trans h1 h2 ih1 ih2 =>
    intro hnd a
    have hnd2 := ((h1.map Prod.fst).nodup_iff).mp hnd
    exact (ih1 hnd a).trans (ih2 hnd2 a)

theorem convertGo_ok_eq (lookup : String → Option Tensor) :
    ∀ (l acc m : List (String × Tensor)), convertGo lookup l acc = .ok m →
    m = List.foldl (fun a p => insertOD a p.1 p.2) acc (l.filterMap (contrib lookup)) := by
  intro l
  induction l with
  | nil =>
    intro acc m h
    simp only [convertGo] at h
    simp only [List.filterMap_nil, List.foldl_nil]
    exact (Except.ok.inj h).symm
  | cons p rest ih =>
    intro acc m h
    obtain ⟨k, v⟩ := p
    cases hh : handleKey lookup k v with
    | error e =>
      simp only [convertGo, hh] at h
      exact absurd h (by simp)
    | ok o =>
      cases o with
      | none =>
        simp only [convertGo, hh] at h
        have hr := ih acc m h
        simp only [List.filterMap_cons, contrib, hh]
        exact hr
      | some q =>
        obtain ⟨tk, tv⟩ := q
        simp only [convertGo, hh] at h
        have hr := ih (insertOD acc tk tv) m h
        simp only [List.filterMap_cons, contrib, hh, List.foldl_cons]
        exact hr

theorem foldl_insertOD_eq_append :
    ∀ (ps acc : List (String × Tensor)), (ps.map Prod.fst).Nodup →
    (∀ x ∈ ps.map Prod.fst, x ∉ acc.map Prod.fst) →
    List.foldl (fun a p => insertOD a p.1 p.2) acc ps = acc ++ ps := by
  intro ps
  induction ps with
  | nil => intro acc _ _; simp
  | cons p rest ih =>
    intro acc hnd hdis
    obtain ⟨tk, tv⟩ := p
    have htk : tk ∉ acc.map Prod.fst := hdis tk (by simp)
    have hany : acc.any (fun p => p.1 == tk) = false := by
      rw [List.any_eq_false]
      intro x hx
      have hx1 : x.1 ∈ acc.map Prod.fst := List.mem_map.mpr ⟨x, hx, rfl⟩
      exact fun hbeq => htk ((eq_of_beq hbeq) ▸ hx1)
    have hstep : insertOD acc tk tv = acc ++ [(tk, tv)] := by
      unfold insertOD
      rw [if_neg (by rw [hany]; exact Bool.false_ne_true)]
    rw [List.foldl_cons]
    simp only []
    rw [hstep]
    simp only [List.map_cons, List.nodup_cons] at hnd
    rw [ih (acc ++ [(tk, tv)]) hnd.2 ?_]
    · simp
    · intro x hx
      simp only [List.map_append, List.map_cons, List.map_nil, List.mem_append,
        List.mem_singleton]
      rintro (hmem | hmem)
      · exact hdis x (by simp [hx]) hmem
      · exact hnd.1 (hmem ▸ hx)

/-- Characterization of a successful conversion: the target mapping is the
list of per-entry contributions, provided their target keys do not collide. -/
theorem convertWeights_ok_eq_contribs (src m : List (String × Tensor))
    (h : convertWeights src = .ok m)
    (hct : ((contribs src).map Prod.fst).Nodup) : m = contribs src := by
  have h1 := convertGo_ok_eq (srcLookup src) src [] m h
  have h2 : List.filterMap (contrib (srcLookup src)) src = contribs src := rfl
  rw [h2] at h1
  rw [foldl_insertOD_eq_append (contribs src) [] hct (by simp)] at h1
  simpa using h1

/-- C8 (amended): The remapping is order-independent on mappings whose
per-entry contributions have pairwise distinct target keys: for two source
lists holding the same key-tensor pairs in possibly different orders (source
keys without duplicates), successful conversion yields target mappings equal
as functions from key to tensor. -/
theorem convert_order_independent
    (l1 l2 m1 m2 : List (String × Tensor))
    (hperm : l1.Perm l2) (hnd : (l1.map Prod.fst).Nodup)
    (hct : ((contribs l1).map Prod.fst).Nodup)
    (h1 : convertWeights l1 = .ok m1) (h2 : convertWeights l2 = .ok m2) :
    ∀ t, List.lookup t m1 = List.lookup t m2 := by
  have hlk : srcLookup l1 = srcLookup l2 :=
    funext (fun a => lookup_eq_of_perm hperm hnd a)
  have hcp : (contribs l1).Perm (contribs l2) := by
    unfold contribs
    rw [← hlk]
    exact hperm.filterMap _
  have hct2 : ((contribs l2).map Prod.fst).Nodup := ((hcp.map Prod.fst).nodup_iff).mp hct
  have e1 := convertWeights_ok_eq_contribs l1 m1 h1 hct
  have e2 := convertWeights_ok_eq_contribs l2 m2 h2 hct2
  intro t
  rw [e1, e2]
  exact lookup_eq_of_perm hcp hct t

set_option maxRecDepth 40000 in
/-- C8 (counterexample to the claim as stated): two source mappings with the
same key-tensor pairs, enumerated in different orders, whose converted target
mappings differ as functions: both self-attention output-projection keys of
encoder block 0 (sub-layers 0 and 1) write the same target key, so the last
one enumerated wins. -/
theorem convert_order_dependence_counterexample :
    List.Perm
      [("encoder.block.0.layer.0.SelfAttention.o.weight", ([[1]] : Tensor)),
       ("encoder.block.0.layer.1.SelfAttention.o.weight", [[2]])]
      [("encoder.block.0.layer.1.SelfAttention.o.weight", ([[2]] : Tensor)),
       ("encoder.block.0.layer.0.SelfAttention.o.weight", [[1]])]
    ∧ ([("encoder.block.0.layer.0.SelfAttention.o.weight", ([[1]] : Tensor)),
        ("encoder.block.0.layer.1.SelfAttention.o.weight", [[2]])].map Prod.fst).Nodup
    ∧ convertWeights
        [("encoder.block.0.layer.0.SelfAttention.o.weight", [[1]]),
         ("encoder.block.0.layer.1.SelfAttention.o.weight", [[2]])]
      = .ok [("enc_dec_model.enc_dec_model.encoder.model.layers.0.self_attention.dense.weight",
              [[2]])]
    ∧ convertWeights
        [("encoder.block.0.layer.1.SelfAttention.o.weight", [[2]]),
         ("encoder.block.0.layer.0.SelfAttention.o.weight", [[1]])]
      = .ok [("enc_dec_model.enc_dec_model.encoder.model.layers.0.self_attention.dense.weight",
              [[1]])]
    ∧ List.lookup "enc_dec_model.enc_dec_model.encoder.model.layers.0.self_attention.dense.weight"
        [("enc_dec_model.enc_dec_model.encoder.model.layers.0.self_attention.dense.weight",
          ([[2]] : Tensor))]
      ≠ List.lookup "enc_dec_model.enc_dec_model.encoder.model.layers.0.self_attention.dense.weight"
        [("enc_dec_model.enc_dec_model.encoder.model.layers.0.self_attention.dense.weight",
          [[1]])] :=
  ⟨List.Perm.swap _ _ _, by decide, by rfl, by rfl, by decide⟩

set_option maxRecDepth 40000 in
theorem convert_order_independent_witness :
    List.lookup "enc_dec_model.tokens_head.weight"
      [("enc_dec_model.tokens_head.weight", ([[4]] : Tensor))]
    = List.lookup "enc_dec_model.tokens_head.weight"
      [("enc_dec_model.tokens_head.weight", ([[4]] : Tensor))] :=
  convert_order_independent
    [("lm_head.weight", [[4]]), ("shared.weight", [[0]])]
    [("shared.weight", [[0]]), ("lm_head.weight", [[4]])]
    [("enc_dec_model.tokens_head.weight", [[4]])]
    [("enc_dec_model.tokens_head.weight", [[4]])]
    (List.Perm.swap _ _ _) (by decide) (by decide) (by rfl) (by rfl)
    "enc_dec_model.tokens_head.weight"

theorem pre_digits (A ds C : List Char) (hds : ∀ c ∈ ds, c.isDigit = true) (hne : ds ≠ []) :
    ∀ P : List Char, (∀ c ∈ P, c.isDigit = false) → P <+: A ++ (ds ++ C) → P <+: A := by
  induction A with
  | nil =>
    intro P hP h
    cases P with
    | nil => exact List.nil_prefix
    | cons p P' =>
      exfalso
      cases ds with
      | nil => exact hne rfl
      | cons d ds' =>
        rw [List.nil_append, List.cons_append] at h
        have h1 := (List.cons_prefix_cons.mp h).1
        have hd := hds d (by simp)
        have hp := hP p (by simp)
        rw [h1, hd] at hp
        cases hp
  | cons a A' ih =>
    intro P hP h
    cases P with
    | nil => exact List.nil_prefix
    | cons p P' =>
      rw [List.cons_append] at h
      obtain ⟨h1, h2⟩ := List.cons_prefix_cons.mp h
      exact List.cons_prefix_cons.mpr ⟨h1, ih P' (fun c hc => hP c (by simp [hc])) h2⟩

theorem infix_digits_right (ds C : List Char) (hds : ∀ c ∈ ds, c.isDigit = true) :
    ∀ P : List Char, (∀ c ∈ P, c.isDigit = false) → P ≠ [] → P <:+: ds ++ C → P <:+: C := by
  induction ds with
  | nil => intro P _ _ h; simpa using h
  | cons d ds' ih =>
    intro P hP hPne h
    rw [List.cons_append] at h
    rcases List.infix_cons_iff.mp h with hpre | hinf
    · exfalso
      cases P with
      | nil => exact hPne rfl
      | cons p P' =>
        have h1 := (List.cons_prefix_cons.mp hpre).1
        have hd := hds d (by simp)
        have hp := hP p (by simp)
        rw [h1, hd] at hp
        cases hp
    · exact ih (fun c hc => hds c (by simp [hc])) P hP hPne hinf

theorem infix_digits (A ds C : List Char) (hds : ∀ c ∈ ds, c.isDigit = true) (hne : ds ≠ []) :
    ∀ P : List Char, (∀ c ∈ P, c.isDigit = false) → P ≠ [] →
    P <:+: A ++ (ds ++ C) → P <:+: A ∨ P <:+: C := by
  induction A with
  | nil =>
    intro P hP hPne h
    rw [List.nil_append] at h
    exact Or.inr (infix_digits_right ds C hds P hP hPne h)
  | cons a A' ih =>
    intro P hP hPne h
    rw [List.cons_append] at h
    rcases List.infix_cons_iff.mp h with hpre | hinf
    · rw [← List.cons_append] at hpre
      exact Or.inl (pre_digits (a :: A') ds C hds hne P hP hpre).isInfix
    · rcases ih P hP hPne hinf with h1 | h1
      · exact Or.inl (h1.trans (List.infix_cons (List.infix_refl A')))
      · exact Or.inr h1

theorem noHas_mid_digits (A ds C pat core : String)
    (hcore : core.data <:+: pat.data)
    (hcf : ∀ c ∈ core.data, c.isDigit = false)
    (hcne : core.data ≠ [])
    (hdig : ∀ c ∈ ds.data, c.isDigit = true) (hne : ds.data ≠ [])
    (hA : ¬ core.data <:+: A.data) (hC : ¬ core.data <:+: C.data) :
    ¬ strHas (A ++ (ds ++ C)) pat := by
  intro h
  have h2 : core.data <:+: (A ++ (ds ++ C)).data := hcore.trans h
  rw [String.data_append, String.data_append] at h2
  rcases infix_digits A.data ds.data C.data hdig hne core.data hcf hcne h2 with h3 | h3
  · exact hA h3
  · exact hC h3

theorem ne_const_of_mid (A ds C c : String) (h : ¬ A.data <+: c.data) :
    A ++ (ds ++ C) ≠ c := by
  intro e
  apply h
  rw [← e, String.data_append]
  exact ⟨_, rfl⟩

theorem append_eq_cons_self (xs t : List Char) (y : Char) (h : xs ++ t = y :: t) : xs = [y] := by
  have hlen : xs.length + t.length = t.length + 1 := by
    have h2 := congrArg List.length h
    simpa [List.length_append, Nat.add_comm] using h2
  have hx1 : xs.length = 1 := by omega
  cases xs with
  | nil => simp at hx1
  | cons x xs' =>
    have hnil : xs' = [] := List.eq_nil_of_length_eq_zero (by simpa using hx1)
    subst hnil
    rw [List.singleton_append] at h
    rw [(List.cons.injEq _ _ _ _ ▸ h : x = y ∧ t = t).1]

theorem data_ne_of_ne (s t : String) (h : s ≠ t) : s.data ≠ t.data := by
  intro e
  apply h
  cases s
  cases t
  exact congrArg String.mk e

theorem ne_rpe_of_mid (A ds C c : String) (hc : c.data = A.data ++ ('0' :: C.data))
    (hds : ds.data ≠ ['0']) : A ++ (ds ++ C) ≠ c := by
  intro e
  apply hds
  have h1 : A.data ++ (ds.data ++ C.data) = A.data ++ ('0' :: C.data) := by
    rw [← hc, ← e, String.data_append, String.data_append]
  have h2 := List.append_cancel_left h1
  exact append_eq_cons_self ds.data C.data '0' h2

set_option maxRecDepth 40000 in
/-- C10: Relative-position-bias keys are recognized only at block index 0:
the two exact block-0 keys are renamed to the encoder/decoder
relative-position-embedding targets, while the same key shape with any other
(nonempty, all-digit, not "0") block segment matches no rule and raises the
fatal unknown-key error naming the key. -/
theorem rpe_block_zero_only (lookup : String → Option Tensor) (v : Tensor) (ds : String)
    (hne : ds.data ≠ []) (hdig : ∀ c ∈ ds.data, c.isDigit = true) (hds0 : ds ≠ "0") :
    handleKey lookup "encoder.block.0.layer.0.SelfAttention.relative_attention_bias.weight" v
      = .ok (some ("enc_dec_model.encoder_relative_position_embedding.relative_position_embedding.weight", v))
    ∧ handleKey lookup "decoder.block.0.layer.0.SelfAttention.relative_attention_bias.weight" v
      = .ok (some ("enc_dec_model.decoder_relative_position_embedding.relative_position_embedding.weight", v))
    ∧ handleKey lookup
        ("encoder.block." ++ (ds ++ ".layer.0.SelfAttention.relative_attention_bias.weight")) v
      = .error ("Unknown key: "
          ++ ("encoder.block." ++ (ds ++ ".layer.0.SelfAttention.relative_attention_bias.weight")))
    ∧ handleKey lookup
        ("decoder.block." ++ (ds ++ ".layer.0.SelfAttention.relative_attention_bias.weight")) v
      = .error ("Unknown key: "
          ++ ("decoder.block." ++ (ds ++ ".layer.0.SelfAttention.relative_attention_bias.weight"))) := by
  have hdsd : ds.data ≠ ['0'] := data_ne_of_ne ds "0" hds0
  refine ⟨rfl, rfl, ?_, ?_⟩
  · apply handleKey_unmatched
    exact ⟨ne_const_of_mid _ _ _ _ (by decide), ne_const_of_mid _ _ _ _ (by decide),
      ne_const_of_mid _ _ _ _ (by decide), ne_const_of_mid _ _ _ _ (by decide),
      ne_rpe_of_mid _ _ _ _ (by decide) hdsd, ne_const_of_mid _ _ _ _ (by decide),
      noHas_mid_digits _ _ _ _ "SelfAttention.q.weight" (by decide) (by decide) (by decide)
        hdig hne (by decide) (by decide),
      noHas_mid_digits _ _ _ _ "SelfAttention.k.weight" (by decide) (by decide) (by decide)
        hdig hne (by decide) (by decide),
      noHas_mid_digits _ _ _ _ "SelfAttention.v.weight" (by decide) (by decide) (by decide)
        hdig hne (by decide) (by decide),
      noHas_mid_digits _ _ _ _ "SelfAttention.o.weight" (by decide) (by decide) (by decide)
        hdig hne (by decide) (by decide),
      noHas_mid_digits _ _ _ _ "EncDecAttention.k.weight" (by decide) (by decide) (by decide)
        hdig hne (by decide) (by decide),
      noHas_mid_digits _ _ _ _ "EncDecAttention.v.weight" (by decide) (by decide) (by decide)
        hdig hne (by decide) (by decide),
      noHas_mid_digits _ _ _ _ "EncDecAttention.q.weight" (by decide) (by decide) (by decide)
        hdig hne (by decide) (by decide),
      noHas_mid_digits _ _ _ _ "EncDecAttention.o.weight" (by decide) (by decide) (by decide)
        hdig hne (by decide) (by decide),
      noHas_mid_digits _ _ _ _ "DenseReluDense.wi" (by decide) (by decide) (by decide)
        hdig hne (by decide) (by decide),
      noHas_mid_digits _ _ _ _ "DenseReluDense.wi" (by decide) (by decide) (by decide)
        hdig hne (by decide) (by decide),
      noHas_mid_digits _ _ _ _ "DenseReluDense.wo" (by decide) (by decide) (by decide)
        hdig hne (by decide) (by decide),
      noHas_mid_digits _ _ _ _ "layer_norm" (by decide) (by decide) (by decide)
        hdig hne (by decide) (by decide)⟩
  · apply handleKey_unmatched
    exact ⟨ne_const_of_mid _ _ _ _ (by decide), ne_const_of_mid _ _ _ _ (by decide),
      ne_const_of_mid _ _ _ _ (by decide), ne_const_of_mid _ _ _ _ (by decide),
      ne_const_of_mid _ _ _ _ (by decide),
      ne_rpe_of_mid _ _ _ _ (by decide) hdsd,
      noHas_mid_digits _ _ _ _ "SelfAttention.q.weight" (by decide) (by decide) (by decide)
        hdig hne (by decide) (by decide),
      noHas_mid_digits _ _ _ _ "SelfAttention.k.weight" (by decide) (by decide) (by decide)
        hdig hne (by decide) (by decide),
      noHas_mid_digits _ _ _ _ "SelfAttention.v.weight" (by decide) (by decide) (by decide)
        hdig hne (by decide) (by decide),
      noHas_mid_digits _ _ _ _ "SelfAttention.o.weight" (by decide) (by decide) (by decide)
        hdig hne (by decide) (by decide),
      noHas_mid_digits _ _ _ _ "EncDecAttention.k.weight" (by decide) (by decide) (by decide)
        hdig hne (by decide) (by decide),
      noHas_mid_digits _ _ _ _ "EncDecAttention.v.weight" (by decide) (by decide) (by decide)
        hdig hne (by decide) (by decide),
      noHas_mid_digits _ _ _ _ "EncDecAttention.q.weight" (by decide) (by decide) (by decide)
        hdig hne (by decide) (by decide),
      noHas_mid_digits _ _ _ _ "EncDecAttention.o.weight" (by decide) (by decide) (by decide)
        hdig hne (by decide) (by decide),
      noHas_mid_digits _ _ _ _ "DenseReluDense.wi" (by decide) (by decide) (by decide)
        hdig hne (by decide) (by decide),
      noHas_mid_digits _ _ _ _ "DenseReluDense.wi" (by decide) (by decide) (by decide)
        hdig hne (by decide) (by decide),
      noHas_mid_digits _ _ _ _ "DenseReluDense.wo" (by decide) (by decide) (by decide)
        hdig hne (by decide) (by decide),
      noHas_mid_digits _ _ _ _ "layer_norm" (by decide) (by decide) (by decide)
        hdig hne (by decide) (by decide)⟩

theorem rpe_block_zero_only_witness :
    handleKey (fun _ => none)
      ("encoder.block." ++ ("1" ++ ".layer.0.SelfAttention.relative_attention_bias.weight"))
      [[5]]
      = .error ("Unknown key: " ++ ("encoder.block."
          ++ ("1" ++ ".layer.0.SelfAttention.relative_attention_bias.weight"))) :=
  (rpe_block_zero_only (fun _ => none) [[5]] "1" (by decide) (by decide) (by decide)).2.2.1
